import Mathlib

/-!
Shallow embedding of `urbanspoon/core.py`.

A gridded field (xarray `DataArray` with `time`, `lat`, `lon` dimensions) is
modelled as coordinate label lists together with one lat-by-lon slab of
optional values per timestamp; `none` models a missing value (NaN).
Scalars are taken in a linear ordered field so that concrete computations can
run over `ℚ` while the cosine latitude weighting lives over `ℝ`.
-/

namespace Urbanspoon

/-- A calendar timestamp of the time axis (daily resolution). -/
structure Date where
  year : Nat
  month : Nat
  day : Nat
deriving DecidableEq

/-- Lexicographic comparison of dates. -/
def Date.le (a b : Date) : Bool :=
  a.year.blt b.year ||
    (a.year.beq b.year &&
      (a.month.blt b.month || (a.month.beq b.month && a.day.ble b.day)))

/-- A lat-by-lon slab of values; `none` is a missing cell (NaN). -/
abbrev Grid (α : Type) := List (List (Option α))

/-- A gridded field: coordinate labels plus one slab per timestamp.
Row `i` of a slab sits at latitude `lat[i]`, column `j` at longitude
`lon[j]`. -/
structure STArray (α : Type) where
  lat : List α
  lon : List α
  entries : List (Date × Grid α)

variable {α : Type} [LinearOrderedField α]

/-- Sum of a sample, skipping missing values (xarray `sum`, `skipna=True`). -/
def nansum (l : List (Option α)) : α := (l.filterMap id).sum

/-- Number of present values in a sample. -/
def nancount (l : List (Option α)) : Nat := (l.filterMap id).length

/-- Mean of a sample skipping missing values; an all-missing sample yields
NaN (xarray `mean`, `skipna=True`). -/
def nanmean (l : List (Option α)) : Option α :=
  if nancount l = 0 then none else some (nansum l / (nancount l : α))

/-- Floating-point division: a zero denominator produces a non-finite value
(`0/0` is NaN), modelled as a missing result. -/
def fdiv (a b : α) : Option α := if b = 0 then none else some (a / b)

/-! ### Spatial collapse (`xr_collapse_across_space`, core.py lines 29-56) -/

/-- `lat_weights = np.cos(da["lat"] * np.pi / 180.0)` (line 45). -/
noncomputable def latWeights (lat : List ℝ) : List ℝ :=
  lat.map (fun v => Real.cos (v * Real.pi / 180))

/-- `weights = ones * lat_weights` (lines 46-47): the latitude weights
broadcast to the field's shape. -/
def broadcastWeights (g : Grid α) (lw : List α) : List (List α) :=
  (g.zip lw).map (fun p => p.1.map (fun _ => 1 * p.2))

/-- `masked_weights = weights.where(~da.isnull(), 0)` (line 48). -/
def maskWeights (g : Grid α) (w : List (List α)) : List (List α) :=
  (g.zip w).map (fun p => (p.1.zip p.2).map (fun q => if q.1.isSome then q.2 else 0))

/-- `da * masked_weights`: elementwise product, missing values propagate. -/
def mulGrid (g : Grid α) (w : List (List α)) : Grid α :=
  (g.zip w).map (fun p => (p.1.zip p.2).map (fun q => q.1.map (fun v => v * q.2)))

/-- Sum of a slab over both spatial axes, skipping missing values. -/
def nansum2 (g : Grid α) : α := (g.map nansum).sum

/-- Sum of a plain (never-missing) slab over both spatial axes. -/
def sum2 (w : List (List α)) : α := (w.map List.sum).sum

/-- Body of the `weighting == "GMST"` branch (lines 45-52):
`(da * masked_weights).sum(dim=("lat","lon")) / masked_weights.sum(dim=("lat","lon"))`. -/
noncomputable def gmstCollapse (lat : List ℝ) (g : Grid ℝ) : Option ℝ :=
  let masked := maskWeights g (broadcastWeights g (latWeights lat))
  fdiv (nansum2 (mulGrid g masked)) (sum2 masked)

/-- `xr_collapse_across_space(da, weighting)` (lines 29-56), with the `lat`
coordinate labels and the slab passed explicitly. -/
noncomputable def xr_collapse_across_space (lat : List ℝ) (g : Grid ℝ)
    (weighting : String) : Except String (Option ℝ) :=
  if weighting = "GMST" then Except.ok (gmstCollapse lat g)
  else Except.error (weighting ++ " is an unknown weighting scheme")

/-! ### Grouping by year (`groupby("time.year")`) -/

/-- Cell `(i, j)` of a slab; out of range reads are missing. -/
def cellAt (g : Grid α) (i j : Nat) : Option α := (g.getD i []).getD j none

/-- The series of cell `(i, j)` across a stack of slabs. -/
def cellSeries (gs : List (Grid α)) (i j : Nat) : List (Option α) :=
  gs.map (fun g => cellAt g i j)

/-- Cellwise skipna mean of a stack of slabs on an `nlat × nlon` canvas. -/
def cellMeanShaped (nlat nlon : Nat) (gs : List (Grid α)) : Grid α :=
  (List.range nlat).map (fun i => (List.range nlon).map (fun j => nanmean (cellSeries gs i j)))

/-- Cellwise count of present values of a stack of slabs. -/
def cellCountShaped (nlat nlon : Nat) (gs : List (Grid α)) : List (List Nat) :=
  (List.range nlat).map (fun i => (List.range nlon).map (fun j => nancount (cellSeries gs i j)))

/-- Insert a year into a sorted duplicate-free list of years. -/
def insertYear (y : Nat) : List Nat → List Nat
  | [] => [y]
  | z :: zs => if y < z then y :: z :: zs else if y = z then z :: zs else z :: insertYear y zs

/-- The distinct years of a time axis in ascending order: the group keys
produced by `groupby("time.year")`. -/
def sortedYears (es : List (Date × Grid α)) : List Nat :=
  es.foldr (fun e acc => insertYear e.1.year acc) []

/-- The slabs whose timestamp falls in year `y`. -/
def gridsOfYear (es : List (Date × Grid α)) (y : Nat) : List (Grid α) :=
  (es.filter (fun e => e.1.year == y)).map (fun e => e.2)

/-- A year-indexed result carrying the name of its leading axis. -/
structure YearSeries (β : Type) where
  dim : String
  items : List (Nat × β)
deriving DecidableEq

/-- `xr_average_across_days_of_year(da)` (lines 100-114):
`da.groupby("time.year").mean()`. -/
def xr_average_across_days_of_year (st : STArray α) : YearSeries (Grid α) :=
  ⟨"year", (sortedYears st.entries).map (fun y =>
    (y, cellMeanShaped st.lat.length st.lon.length (gridsOfYear st.entries y)))⟩

/-! ### Threshold counting (`xr_count_across_days_of_year`, lines 117-133) -/

/-- `da.where(da > count_above)` (line 131): keep values strictly above the
threshold, everything else becomes missing; missing stays missing since
`NaN > c` is false. -/
def whereGT (c : α) (g : Grid α) : Grid α :=
  g.map (fun row => row.map (fun o => o.bind (fun v => if c < v then some v else none)))

/-- `xr_count_across_days_of_year(da, count_above)` (lines 117-133):
`da.where(da > count_above).groupby("time.year").count()` then
`rename(year="time")`. -/
def xr_count_across_days_of_year (st : STArray α) (count_above : α) :
    YearSeries (List (List Nat)) :=
  let masked := st.entries.map (fun e => (e.1, whereGT count_above e.2))
  let counted : YearSeries (List (List Nat)) :=
    ⟨"year", (sortedYears masked).map (fun y =>
      (y, cellCountShaped st.lat.length st.lon.length (gridsOfYear masked y)))⟩
  ⟨if counted.dim = "year" then "time" else counted.dim, counted.items⟩

/-! ### Time slicing (`xr_collapse_across_time`, lines 82-97) -/

/-- One end of a time slice: a bare year string such as `"2020"` or a full
date string such as `"1995-01-01"`. -/
inductive TimeBound
  | byYear (y : Nat)
  | byDay (y m d : Nat)
deriving DecidableEq

/-- The first timestamp covered by a slice start, following pandas partial
string indexing: a bare year starts at January 1st. -/
def TimeBound.startDate : TimeBound → Date
  | .byYear y => ⟨y, 1, 1⟩
  | .byDay y m d => ⟨y, m, d⟩

/-- The last timestamp covered by a slice stop: a bare year runs through
December 31st, and the slice is inclusive of its stop. -/
def TimeBound.stopDate : TimeBound → Date
  | .byYear y => ⟨y, 12, 31⟩
  | .byDay y m d => ⟨y, m, d⟩

/-- The string form of a bound, as it appears in the python slice tuples. -/
def TimeBound.render : TimeBound → String
  | .byYear y => toString y
  | .byDay y m d => toString y ++ "-" ++ toString m ++ "-" ++ toString d

/-- Membership of a timestamp in the inclusive slice `[start, stop]`. -/
def inSlice (sl : TimeBound × TimeBound) (t : Date) : Bool :=
  Date.le sl.1.startDate t && Date.le t sl.2.stopDate

/-- `xr_collapse_across_time(da, time_slice)` (lines 82-97):
`da.sel(time=slice(a, b)).mean("time")`; the time axis is dropped. -/
def xr_collapse_across_time (st : STArray α) (sl : TimeBound × TimeBound) : Grid α :=
  cellMeanShaped st.lat.length st.lon.length
    ((st.entries.filter (fun e => inSlice sl e.1)).map (fun e => e.2))

/-- The default `slices` argument of `apply_xr_collapse_across_time`
(line 60). -/
def defaultSlices : List (TimeBound × TimeBound) :=
  [(.byYear 2020, .byYear 2040), (.byYear 2040, .byYear 2060),
   (.byYear 2060, .byYear 2080), (.byYear 2080, .byYear 2100)]

/-- `apply_xr_collapse_across_time(da, slices)` (lines 59-79): an ordered
mapping keyed by the rendered slice, insertion order preserved. -/
def apply_xr_collapse_across_time (st : STArray α)
    (slices : List (TimeBound × TimeBound)) : List (String × Grid α) :=
  slices.map (fun sl => (sl.1.render ++ "_" ++ sl.2.render, xr_collapse_across_time st sl))

/-! ### Composite reduction (`xr_collapse_to_global_time_series`, lines 10-26) -/

/-- `xr_collapse_to_global_time_series(da)` (lines 10-26): year averaging
followed by the spatial collapse with the default `"GMST"` weighting.  The
spatial collapse acts slab by slab along the year axis, which is exactly how
the weighting broadcast of lines 45-48 treats a leading year dimension. -/
noncomputable def xr_collapse_to_global_time_series (st : STArray ℝ) : YearSeries (Option ℝ) :=
  let collapsed := xr_average_across_days_of_year st
  ⟨collapsed.dim, collapsed.items.map (fun p =>
    (p.1, match xr_collapse_across_space st.lat p.2 "GMST" with
          | Except.ok v => v
          | Except.error _ => none))⟩

/-! ### Quantiles by cell (`xr_quantiles_across_time_by_cell`, lines 145-162) -/

/-- Insert a value into an ascending list. -/
def insertAsc (x : α) : List α → List α
  | [] => [x]
  | y :: ys => if x ≤ y then x :: y :: ys else y :: insertAsc x ys

/-- Ascending insertion sort. -/
def sortAsc (l : List α) : List α := l.foldr insertAsc []

/-- numpy default linear-interpolation quantile of a sample (missing values
already dropped by the caller, as `quantile` runs with `skipna`). -/
def quantileLinear [FloorRing α] (p : α) (xs : List α) : Option α :=
  let s := sortAsc xs
  if s.length = 0 then none
  else
    let h := p * ((s.length - 1 : Nat) : α)
    let i := (⌊h⌋).toNat
    let lo := s.getD i 0
    let hi := s.getD (min (i + 1) (s.length - 1)) 0
    some (lo + (h - (i : α)) * (hi - lo))

/-- Body of the loop of `xr_quantiles_across_time_by_cell` (lines 160-161):
`da.sel(lat=c[0], lon=c[1], drop=True).quantile(q=q, dim="time")`.  `sel`
with no method performs exact label lookup and raises a KeyError when a
label is absent. -/
def quantCell [FloorRing α] (st : STArray α) (q : List α) (c : α × α) :
    Except String ((α × α) × List (α × Option α)) :=
  match st.lat.findIdx? (fun v => v == c.1), st.lon.findIdx? (fun v => v == c.2) with
  | some i, some j =>
      Except.ok (c, q.map (fun p =>
        (p, quantileLinear p ((cellSeries (st.entries.map (fun e => e.2)) i j).filterMap id))))
  | _, _ => Except.error "KeyError: coordinate not found"

/-- `xr_quantiles_across_time_by_cell(da, q, cells)` (lines 145-162): the
loop over `cells`, aborted by the first failing exact lookup. -/
def xr_quantiles_across_time_by_cell [FloorRing α] (st : STArray α) (q : List α)
    (cells : List (α × α)) : Except String (List ((α × α) × List (α × Option α))) :=
  cells.mapM (quantCell st q)

end Urbanspoon

/-! ### Concrete fields used by the spec's regression examples -/

namespace Urbanspoon

/-- The 4-step time series `[1, 2, 3, 4]` on a 1×1 grid within one year. -/
def fourDayField : STArray ℚ :=
  ⟨[1], [1],
   [(⟨1995, 1, 1⟩, [[some 1]]), (⟨1995, 1, 2⟩, [[some 2]]),
    (⟨1995, 1, 3⟩, [[some 3]]), (⟨1995, 1, 4⟩, [[some 4]])]⟩

/-- A 720-sample all-ones daily series on a 1×1 grid spanning 1995-1996. -/
def allOnes720Field : STArray ℚ :=
  ⟨[1], [1],
   (List.range 720).map (fun i =>
     (⟨1995 + i / 360, 1 + (i % 360) / 30, 1 + (i % 360) % 30⟩, [[some 1]]))⟩

/-- The ramp `1..100` over a 2×2 grid with `lat ∈ {-90, 90}`,
`lon ∈ {-180, 180}`, every cell carrying the same time series. -/
def rampField : STArray ℚ :=
  ⟨[-90, 90], [-180, 180],
   (List.range 100).map (fun i =>
     (⟨1995, 1, i + 1⟩,
      [[some ((i : ℚ) + 1), some ((i : ℚ) + 1)],
       [some ((i : ℚ) + 1), some ((i : ℚ) + 1)]]))⟩

/-- A single-day all-ones 1×1 field. -/
def oneDayOnesField : STArray ℚ := ⟨[1], [1], [(⟨2000, 1, 1⟩, [[some 1]])]⟩

end Urbanspoon

/-! ## Helper lemmas for the spatial collapse -/

namespace Urbanspoon

variable {α : Type} [LinearOrderedField α]

theorem zip_self_map {β γ : Type} (l : List β) (f : β → γ) :
    l.zip (l.map f) = l.map (fun x => (x, f x)) := by
  induction l with
  | nil => rfl
  | cons x l ih => simp only [List.map_cons, List.zip_cons_cons, ih]

theorem row_mask_sum_aux (r : List (Option α)) (w : α) :
    ((r.zip (r.map (fun _ => w))).map (fun q => if q.1.isSome then q.2 else 0)).sum =
      (((r.map (fun c => (c, w))).filter (fun q => q.1.isSome)).map (fun q => q.2)).sum := by
  rw [zip_self_map, List.map_map]
  induction r with
  | nil => simp
  | cons c r ih =>
    cases c <;> simp [List.filter_cons, Function.comp, -List.map_const, -List.map_const'] at ih ⊢ <;>
      simp [ih]

theorem row_mul_sum_aux (r : List (Option α)) (w : α) :
    nansum ((r.zip ((r.zip (r.map (fun _ => w))).map
        (fun q => if q.1.isSome then q.2 else 0))).map (fun q => q.1.map (fun v => v * q.2))) =
      ((r.map (fun c => (c, w))).filterMap (fun q => q.1.map (fun v => v * q.2))).sum := by
  rw [zip_self_map, List.map_map, zip_self_map, List.map_map]
  induction r with
  | nil => simp [nansum]
  | cons c r ih =>
    cases c <;>
      simp [nansum, List.filterMap_cons, Function.comp, -List.map_const, -List.map_const'] at ih ⊢ <;>
      simp [ih]

theorem row_mask_sum (r : List (Option α)) (w : α) :
    ((r.zip (r.map (fun _ => 1 * w))).map (fun q => if q.1.isSome then q.2 else 0)).sum =
      (((r.map (fun c => (c, w))).filter (fun q => q.1.isSome)).map (fun q => q.2)).sum := by
  simpa only [one_mul] using row_mask_sum_aux r w

theorem row_mul_sum (r : List (Option α)) (w : α) :
    nansum ((r.zip ((r.zip (r.map (fun _ => 1 * w))).map
        (fun q => if q.1.isSome then q.2 else 0))).map (fun q => q.1.map (fun v => v * q.2))) =
      ((r.map (fun c => (c, w))).filterMap (fun q => q.1.map (fun v => v * q.2))).sum := by
  simpa only [one_mul] using row_mul_sum_aux r w

theorem broadcastWeights_cons (r : List (Option α)) (g : Grid α) (w : α) (lw : List α) :
    broadcastWeights (r :: g) (w :: lw) = (r.map (fun _ => 1 * w)) :: broadcastWeights g lw := rfl

theorem maskWeights_cons (r : List (Option α)) (g : Grid α) (row : List α) (rest : List (List α)) :
    maskWeights (r :: g) (row :: rest) =
      ((r.zip row).map (fun q => if q.1.isSome then q.2 else 0)) :: maskWeights g rest := rfl

theorem mulGrid_cons (r : List (Option α)) (g : Grid α) (row : List α) (rest : List (List α)) :
    mulGrid (r :: g) (row :: rest) =
      ((r.zip row).map (fun q => q.1.map (fun v => v * q.2))) :: mulGrid g rest := rfl

theorem sum2_cons (row : List α) (rest : List (List α)) :
    sum2 (row :: rest) = row.sum + sum2 rest := by simp [sum2]

theorem nansum2_cons (row : List (Option α)) (rest : Grid α) :
    nansum2 (row :: rest) = nansum row + nansum2 rest := by simp [nansum2]

theorem sum2_mask (g : Grid α) (lw : List α) :
    sum2 (maskWeights g (broadcastWeights g lw)) =
      ((((g.zip lw).flatMap (fun p => p.1.map (fun c => (c, p.2)))).filter
        (fun q => q.1.isSome)).map (fun q => q.2)).sum := by
  induction g generalizing lw with
  | nil => simp [sum2, maskWeights, broadcastWeights]
  | cons r g ih =>
    cases lw with
    | nil => simp [sum2, maskWeights, broadcastWeights]
    | cons w lw =>
      rw [broadcastWeights_cons, maskWeights_cons, sum2_cons, List.zip_cons_cons,
        List.flatMap_cons, List.filter_append, List.map_append, List.sum_append,
        row_mask_sum, ih]

theorem nansum2_mul (g : Grid α) (lw : List α) :
    nansum2 (mulGrid g (maskWeights g (broadcastWeights g lw))) =
      (((g.zip lw).flatMap (fun p => p.1.map (fun c => (c, p.2)))).filterMap
        (fun q => q.1.map (fun v => v * q.2))).sum := by
  induction g generalizing lw with
  | nil => simp [nansum2, mulGrid, maskWeights, broadcastWeights]
  | cons r g ih =>
    cases lw with
    | nil => simp [nansum2, mulGrid, maskWeights, broadcastWeights]
    | cons w lw =>
      rw [broadcastWeights_cons, maskWeights_cons, mulGrid_cons, nansum2_cons,
        List.zip_cons_cons, List.flatMap_cons, List.filterMap_append, List.sum_append,
        row_mul_sum, ih]

theorem gmstCollapse_eq (lat : List ℝ) (g : Grid ℝ) :
    gmstCollapse lat g =
      fdiv (((g.zip (latWeights lat)).flatMap (fun p => p.1.map (fun c => (c, p.2)))).filterMap
          (fun q => q.1.map (fun v => v * q.2))).sum
        (((((g.zip (latWeights lat)).flatMap (fun p => p.1.map (fun c => (c, p.2)))).filter
          (fun q => q.1.isSome)).map (fun q => q.2)).sum) := by
  rw [gmstCollapse, sum2_mask, nansum2_mul]

/-! ## Claim theorems: spatial collapse -/

/-- C1: with weighting `"GMST"`, `collapse_across_space` returns
`sum(field · weight) / sum(weight)` reduced over both spatial axes, where the
weight of a cell is `cos(lat · π/180)` broadcast along the row of its
latitude, missing cells are dropped from the numerator sum and carry weight 0
in the denominator sum; and on the 2×2 regression field holding 1 and 3 at
latitude 1 and 2 and 4 at latitude 2 it produces exactly the hand-computed
weighted ratio. -/
theorem collapse_across_space_gmst_weighted_mean :
    (∀ (lat : List ℝ) (g : Grid ℝ),
      xr_collapse_across_space lat g "GMST" =
        Except.ok (fdiv
          ((((g.zip (latWeights lat)).flatMap (fun p => p.1.map (fun c => (c, p.2)))).filterMap
            (fun q => q.1.map (fun v => v * q.2))).sum)
          (((((g.zip (latWeights lat)).flatMap (fun p => p.1.map (fun c => (c, p.2)))).filter
            (fun q => q.1.isSome)).map (fun q => q.2)).sum))) ∧
    xr_collapse_across_space [1, 2] [[some 1, some 3], [some 2, some 4]] "GMST" =
      Except.ok (some ((1 * Real.cos (1 * Real.pi / 180) + 2 * Real.cos (2 * Real.pi / 180) +
          3 * Real.cos (1 * Real.pi / 180) + 4 * Real.cos (2 * Real.pi / 180)) /
        (2 * Real.cos (1 * Real.pi / 180) + 2 * Real.cos (2 * Real.pi / 180)))) := by
  constructor
  · intro lat g
    rw [xr_collapse_across_space, if_pos rfl, gmstCollapse_eq]
  · have hpi := Real.pi_pos
    have h1 : 0 < Real.cos (Real.pi / 180) := by
      apply Real.cos_pos_of_mem_Ioo
      simp only [Set.mem_Ioo]
      constructor <;> linarith
    have h2 : 0 < Real.cos (2 * Real.pi / 180) := by
      apply Real.cos_pos_of_mem_Ioo
      simp only [Set.mem_Ioo]
      constructor <;> linarith
    rw [xr_collapse_across_space, if_pos rfl, gmstCollapse_eq]
    simp [latWeights, fdiv]
    constructor
    · intro h
      linarith
    · ring_nf

/-- C2: any weighting other than `"GMST"` raises a `ValueError` whose message
starts with the invalid weighting value; there is no fallback scheme. -/
theorem collapse_across_space_unknown_weighting_error (lat : List ℝ) (g : Grid ℝ)
    (w : String) (h : w ≠ "GMST") :
    xr_collapse_across_space lat g w = Except.error (w ++ " is an unknown weighting scheme") := by
  rw [xr_collapse_across_space, if_neg h]

/-- Witness for C2 at the weighting string `"foo"`. -/
theorem collapse_across_space_unknown_weighting_error_witness :
    ("foo" : String) ≠ "GMST" ∧
      xr_collapse_across_space [] [] "foo" =
        Except.error ("foo" ++ " is an unknown weighting scheme") :=
  ⟨by decide, collapse_across_space_unknown_weighting_error [] [] "foo" (by decide)⟩

/-- C10: when every spatial cell is missing (or every latitude weight is 0)
the masked-weight denominator of the GMST collapse is 0, the division is
unguarded, and the call returns the NaN value `0/0` rather than an error. -/
theorem collapse_across_space_zero_denominator_nan (lat : List ℝ) (g : Grid ℝ)
    (h : (∀ row ∈ g, ∀ c ∈ row, c = none) ∨ (∀ w ∈ latWeights lat, w = 0)) :
    sum2 (maskWeights g (broadcastWeights g (latWeights lat))) = 0 ∧
      xr_collapse_across_space lat g "GMST" = Except.ok none := by
  have hden : sum2 (maskWeights g (broadcastWeights g (latWeights lat))) = 0 := by
    rw [sum2_mask]
    rcases h with h | h
    · have hnil : ((g.zip (latWeights lat)).flatMap
          (fun p => p.1.map (fun c => (c, p.2)))).filter (fun q => q.1.isSome) = [] := by
        rw [List.filter_eq_nil_iff]
        intro q hq
        rcases List.mem_flatMap.mp hq with ⟨p, hp, hq2⟩
        rcases List.mem_map.mp hq2 with ⟨c, hc, rfl⟩
        have hg := (List.of_mem_zip hp).1
        have hc0 := h p.1 hg c hc
        simp [hc0]
      rw [hnil]
      simp
    · apply List.sum_eq_zero
      intro x hx
      rcases List.mem_map.mp hx with ⟨q, hq, rfl⟩
      have hq1 := (List.mem_filter.mp hq).1
      rcases List.mem_flatMap.mp hq1 with ⟨p, hp, hq2⟩
      rcases List.mem_map.mp hq2 with ⟨c, hc, rfl⟩
      exact h p.2 (List.of_mem_zip hp).2
  refine ⟨hden, ?_⟩
  rw [xr_collapse_across_space, if_pos rfl]
  simp only [gmstCollapse]
  rw [hden]
  simp [fdiv]

/-- Witness for C10 at a 1×1 field whose only cell is missing. -/
theorem collapse_across_space_zero_denominator_nan_witness :
    ((∀ row ∈ ([[none]] : Grid ℝ), ∀ c ∈ row, c = none) ∨
        (∀ w ∈ latWeights [0], w = 0)) ∧
      (sum2 (maskWeights ([[none]] : Grid ℝ) (broadcastWeights [[none]] (latWeights [0]))) = 0 ∧
        xr_collapse_across_space [0] [[none]] "GMST" = Except.ok none) :=
  ⟨Or.inl (by simp), collapse_across_space_zero_denominator_nan [0] [[none]] (Or.inl (by simp))⟩

end Urbanspoon

/-! ## Helper lemmas for year grouping -/

namespace Urbanspoon

section YearGrouping

variable {α : Type}

theorem mem_insertYear (y z : Nat) (l : List Nat) :
    z ∈ insertYear y l ↔ z = y ∨ z ∈ l := by
  induction l with
  | nil => simp [insertYear]
  | cons a l ih =>
    rw [insertYear]
    split_ifs with h1 h2
    · simp only [List.mem_cons]
    · subst h2
      simp only [List.mem_cons]
      tauto
    · simp only [List.mem_cons, ih]
      tauto

theorem insertYear_pairwise (y : Nat) (l : List Nat) (h : l.Pairwise (· < ·)) :
    (insertYear y l).Pairwise (· < ·) := by
  induction l with
  | nil => simp [insertYear]
  | cons a l ih =>
    rcases List.pairwise_cons.mp h with ⟨ha, hl⟩
    rw [insertYear]
    split_ifs with h1 h2
    · refine List.pairwise_cons.mpr ⟨?_, h⟩
      intro b hb
      rcases List.mem_cons.mp hb with rfl | hb
      · exact h1
      · exact lt_trans h1 (ha b hb)
    · exact h
    · refine List.pairwise_cons.mpr ⟨?_, ih hl⟩
      intro b hb
      rcases (mem_insertYear y b l).mp hb with rfl | hb
      · omega
      · exact ha b hb

theorem sortedYears_pairwise (es : List (Date × Grid α)) :
    (sortedYears es).Pairwise (· < ·) := by
  induction es with
  | nil => simp [sortedYears]
  | cons e es ih => exact insertYear_pairwise _ _ ih

theorem mem_sortedYears (es : List (Date × Grid α)) (y : Nat) :
    y ∈ sortedYears es ↔ ∃ e ∈ es, e.1.year = y := by
  induction es with
  | nil => simp [sortedYears]
  | cons e es ih =>
    rw [sortedYears, List.foldr_cons]
    rw [show (List.foldr (fun e acc => insertYear e.1.year acc) [] es) = sortedYears es from rfl]
    rw [mem_insertYear]
    simp only [List.mem_cons, ih]
    constructor
    · rintro (rfl | ⟨a, ha, rfl⟩)
      · exact ⟨e, Or.inl rfl, rfl⟩
      · exact ⟨a, Or.inr ha, rfl⟩
    · rintro ⟨a, ha | ha, rfl⟩
      · subst ha
        exact Or.inl rfl
      · exact Or.inr ⟨a, ha, rfl⟩

theorem mem_gridsOfYear (es : List (Date × Grid α)) (y : Nat) (g : Grid α)
    (h : g ∈ gridsOfYear es y) : ∃ e ∈ es, e.2 = g := by
  rcases List.mem_map.mp h with ⟨e, he, rfl⟩
  exact ⟨e, (List.mem_filter.mp he).1, rfl⟩

theorem cellAt_mem (g : Grid α) (i j : Nat) (v : α) (h : cellAt g i j = some v) :
    ∃ row ∈ g, some v ∈ row := by
  cases hi : g[i]? with
  | none =>
    have hnil : g.getD i [] = [] := by rw [List.getD_eq_getElem?_getD, hi]; rfl
    rw [cellAt, hnil] at h
    simp [List.getD] at h
  | some row =>
    have hr : g.getD i [] = row := by rw [List.getD_eq_getElem?_getD, hi]; rfl
    rw [cellAt, hr] at h
    refine ⟨row, List.getElem?_mem hi, ?_⟩
    rw [List.getD_eq_getElem?_getD] at h
    cases hj : row[j]? with
    | none => rw [hj] at h; simp at h
    | some o =>
      rw [hj] at h
      simp at h
      rw [h] at hj
      exact List.getElem?_mem hj

end YearGrouping

variable {α : Type} [LinearOrderedField α]

theorem items_map_fst (st : STArray α) :
    (xr_average_across_days_of_year st).items.map Prod.fst = sortedYears st.entries := by
  rw [xr_average_across_days_of_year]
  simp [List.map_map, Function.comp_def]

theorem cellAt_cellMeanShaped (nlat nlon : Nat) (gs : List (Grid α)) (i j : Nat)
    (hi : i < nlat) (hj : j < nlon) :
    cellAt (cellMeanShaped nlat nlon gs) i j = nanmean (cellSeries gs i j) := by
  rw [cellAt, cellMeanShaped, List.getD_eq_getElem?_getD, List.getD_eq_getElem?_getD,
    List.getElem?_map, List.getElem?_range hi]
  simp [List.getElem?_range hj]

theorem nanmean_all_eq (l : List (Option α)) (c : α)
    (h : ∀ o ∈ l, ∀ v, o = some v → v = c) :
    nanmean l = none ∨ nanmean l = some c := by
  by_cases h0 : nancount l = 0
  · left
    simp [nanmean, h0]
  · right
    have hall : ∀ v ∈ l.filterMap id, v = c := by
      intro v hv
      rcases List.mem_filterMap.mp hv with ⟨o, ho, h2⟩
      exact h o ho v h2
    have hsum : (l.filterMap id).sum = (l.filterMap id).length • c :=
      List.sum_eq_card_nsmul _ _ hall
    rw [nanmean, if_neg h0, nansum, hsum, nancount]
    congr 1
    rw [nsmul_eq_mul, mul_comm, mul_div_assoc, div_self, mul_one]
    exact Nat.cast_ne_zero.mpr (by simpa [nancount] using h0)

theorem filterMap_id_all_some (l : List (Option α)) (c : α) (h : ∀ o ∈ l, o = some c) :
    l.filterMap id = List.replicate l.length c := by
  induction l with
  | nil => rfl
  | cons o l ih =>
    have ho := h o (List.mem_cons_self o l)
    subst ho
    simp [List.filterMap_cons, List.replicate_succ,
      ih (fun o ho => h o (List.mem_cons_of_mem _ ho))]

theorem nanmean_all_some (l : List (Option α)) (c : α) (h : ∀ o ∈ l, o = some c)
    (hne : l ≠ []) : nanmean l = some c := by
  have hfm := filterMap_id_all_some l c h
  have hlen : l.length ≠ 0 := by
    intro h0
    exact hne (List.length_eq_zero.mp h0)
  rw [nanmean, nancount, hfm, nansum, hfm]
  rw [if_neg (by simpa using hlen)]
  rw [List.sum_replicate, List.length_replicate]
  congr 1
  rw [nsmul_eq_mul, mul_comm, mul_div_assoc, div_self, mul_one]
  exact Nat.cast_ne_zero.mpr hlen

/-! ## Claim theorems: year averaging -/

/-- C3: `average_across_days_of_year` replaces the time axis by a year axis
with one entry per distinct year of the input, ascending; each entry's cell
holds the (skipna) mean of exactly the values whose timestamp falls in that
calendar year; and the 4-step series `[1,2,3,4]` on a 1×1 grid averages to
`2.5`. -/
theorem average_across_days_of_year_year_mean :
    (∀ (β : Type) [LinearOrderedField β] (st : STArray β),
      (xr_average_across_days_of_year st).dim = "year" ∧
      ((xr_average_across_days_of_year st).items.map Prod.fst).Pairwise (· < ·) ∧
      (∀ y, (y ∈ (xr_average_across_days_of_year st).items.map Prod.fst) ↔
        ∃ e ∈ st.entries, e.1.year = y) ∧
      (∀ p ∈ (xr_average_across_days_of_year st).items, ∀ i j, i < st.lat.length →
        j < st.lon.length →
        cellAt p.2 i j =
          nanmean ((st.entries.filter (fun e => e.1.year == p.1)).map
            (fun e => cellAt e.2 i j)))) ∧
    xr_average_across_days_of_year fourDayField = ⟨"year", [(1995, [[some (5/2)]])]⟩ := by
  constructor
  · intro β _ st
    refine ⟨rfl, ?_, ?_, ?_⟩
    · rw [items_map_fst]
      exact sortedYears_pairwise st.entries
    · intro y
      rw [items_map_fst]
      exact mem_sortedYears st.entries y
    · intro p hp i j hi hj
      rw [xr_average_across_days_of_year] at hp
      rcases List.mem_map.mp hp with ⟨y, hy, rfl⟩
      rw [cellAt_cellMeanShaped _ _ _ _ _ hi hj, cellSeries, gridsOfYear, List.map_map]
      rfl
  · simp [xr_average_across_days_of_year, fourDayField, sortedYears, insertYear, gridsOfYear,
      cellMeanShaped, cellSeries, cellAt, nanmean, nancount, nansum, List.range_succ]
    norm_num

/-- Witness for C3: the single output entry of the 4-step example, with the
membership and bound hypotheses discharged at year 1995 and cell (0, 0). -/
theorem average_across_days_of_year_year_mean_witness :
    ((1995, [[some ((5 : ℚ) / 2)]]) ∈ (xr_average_across_days_of_year fourDayField).items ∧
      0 < fourDayField.lat.length ∧ 0 < fourDayField.lon.length) ∧
    cellAt ([[some ((5 : ℚ) / 2)]] : Grid ℚ) 0 0 =
      nanmean ((fourDayField.entries.filter (fun e => e.1.year == 1995)).map
        (fun e => cellAt e.2 0 0)) := by
  have hmem : (1995, [[some ((5 : ℚ) / 2)]]) ∈
      (xr_average_across_days_of_year fourDayField).items := by
    rw [show xr_average_across_days_of_year fourDayField
        = ⟨"year", [(1995, [[some ((5 : ℚ) / 2)]])]⟩ from
      average_across_days_of_year_year_mean.2]
    exact List.mem_singleton.mpr rfl
  exact ⟨⟨hmem, by decide, by decide⟩,
    (average_across_days_of_year_year_mean.1 ℚ fourDayField).2.2.2
      (1995, [[some ((5 : ℚ) / 2)]]) hmem 0 0 (by decide) (by decide)⟩

/-- C9 counterexample: a series whose every non-missing value is 1 but which
contains a missing cell; the year mean of its all-missing cell is missing,
not 1, so the claim as stated fails on this input. -/
theorem average_across_days_of_year_constant_cex :
    (∀ e ∈ (⟨[1], [1], [(⟨2000, 1, 1⟩, [[none]])]⟩ : STArray ℝ).entries,
       ∀ row ∈ e.2, ∀ c ∈ row, ∀ v, c = some v → v = 1) ∧
    ¬ (∀ p ∈ (xr_average_across_days_of_year
          (⟨[1], [1], [(⟨2000, 1, 1⟩, [[none]])]⟩ : STArray ℝ)).items,
        ∀ row ∈ p.2, ∀ c ∈ row, c = some 1) := by
  have hout : xr_average_across_days_of_year
      (⟨[1], [1], [(⟨2000, 1, 1⟩, [[none]])]⟩ : STArray ℝ) =
      ⟨"year", [(2000, [[none]])]⟩ := by
    simp [xr_average_across_days_of_year, sortedYears, insertYear, gridsOfYear,
      cellMeanShaped, cellSeries, cellAt, nanmean, nancount, nansum, List.range_succ]
  constructor
  · simp
  · intro hcl
    have h1 := hcl (2000, [[none]]) (by rw [hout]; simp) [none] (by simp) none (by simp)
    simp at h1

/-- C9 amended: for a series whose every non-missing value is 1, every entry
of the year mean is either 1 or missing (a year whose cell is entirely
missing stays missing). -/
theorem average_across_days_of_year_constant_amended (β : Type) [LinearOrderedField β]
    (st : STArray β)
    (h : ∀ e ∈ st.entries, ∀ row ∈ e.2, ∀ c ∈ row, ∀ v, c = some v → v = 1) :
    ∀ p ∈ (xr_average_across_days_of_year st).items, ∀ row ∈ p.2, ∀ c ∈ row,
      c = none ∨ c = some 1 := by
  intro p hp row hrow c hc
  rw [xr_average_across_days_of_year] at hp
  rcases List.mem_map.mp hp with ⟨y, hy, rfl⟩
  rcases List.mem_map.mp hrow with ⟨i, hi, rfl⟩
  rcases List.mem_map.mp hc with ⟨j, hj, rfl⟩
  apply nanmean_all_eq
  intro o ho v hv
  rcases List.mem_map.mp ho with ⟨g, hg, rfl⟩
  rcases mem_gridsOfYear _ _ _ hg with ⟨e, he, rfl⟩
  rcases cellAt_mem _ _ _ _ hv with ⟨r, hr, hvr⟩
  exact h e he r hr (some v) hvr v rfl

/-- Witness for the amended C9 at a one-entry all-ones field. -/
theorem average_across_days_of_year_constant_amended_witness :
    (∀ e ∈ oneDayOnesField.entries, ∀ row ∈ e.2, ∀ c ∈ row, ∀ v, c = some v → v = 1) ∧
    (∀ p ∈ (xr_average_across_days_of_year oneDayOnesField).items, ∀ row ∈ p.2,
      ∀ c ∈ row, c = none ∨ c = some 1) := by
  have h : ∀ e ∈ oneDayOnesField.entries, ∀ row ∈ e.2, ∀ c ∈ row, ∀ v,
      c = some v → v = 1 := by
    intro e he row hrow c hc v hv
    simp [oneDayOnesField] at he
    subst he
    simp at hrow
    subst hrow
    simp at hc
    subst hc
    exact (Option.some.inj hv).symm
  exact ⟨h, average_across_days_of_year_constant_amended ℚ oneDayOnesField h⟩

end Urbanspoon

/-! ## Claim theorems: composite reduction -/

namespace Urbanspoon

/-- C4: `collapse_to_global_time_series` is exactly the year averaging
followed by the GMST spatial collapse applied along the year axis — no
additional logic — and its result carries only the year axis, with the same
year labels as the year average. -/
theorem collapse_to_global_time_series_composition (st : STArray ℝ) :
    xr_collapse_to_global_time_series st =
      ⟨(xr_average_across_days_of_year st).dim,
       (xr_average_across_days_of_year st).items.map (fun p => (p.1, gmstCollapse st.lat p.2))⟩ ∧
    (∀ (lat : List ℝ) (g : Grid ℝ),
      xr_collapse_across_space lat g "GMST" = Except.ok (gmstCollapse lat g)) ∧
    (xr_collapse_to_global_time_series st).dim = "year" ∧
    (xr_collapse_to_global_time_series st).items.map Prod.fst =
      (xr_average_across_days_of_year st).items.map Prod.fst := by
  refine ⟨?_, ?_, rfl, ?_⟩
  · rw [xr_collapse_to_global_time_series]
    simp [xr_collapse_across_space]
  · intro lat g
    rw [xr_collapse_across_space, if_pos rfl]
  · rw [xr_collapse_to_global_time_series]
    simp [List.map_map, Function.comp_def]

end Urbanspoon

/-! ## Claim theorems: time-range collapse -/

namespace Urbanspoon

/-- C5: `collapse_time_range` selects exactly the timestamps in the inclusive
range `[start, end]`, drops the time axis, and returns the per-cell mean over
that selection; an empty selection silently yields an all-missing degenerate
grid instead of raising. -/
theorem collapse_across_time_inclusive_range :
    ∀ (β : Type) [LinearOrderedField β] (st : STArray β) (sl : TimeBound × TimeBound),
      (∀ e, (e ∈ st.entries.filter (fun e => inSlice sl e.1)) ↔
        (e ∈ st.entries ∧ Date.le sl.1.startDate e.1 = true ∧
          Date.le e.1 sl.2.stopDate = true)) ∧
      ((xr_collapse_across_time st sl).length = st.lat.length) ∧
      (∀ i j, i < st.lat.length → j < st.lon.length →
        cellAt (xr_collapse_across_time st sl) i j =
          nanmean ((st.entries.filter (fun e => inSlice sl e.1)).map
            (fun e => cellAt e.2 i j))) ∧
      ((∀ e ∈ st.entries, inSlice sl e.1 = false) →
        ∀ i j, i < st.lat.length → j < st.lon.length →
          cellAt (xr_collapse_across_time st sl) i j = none) := by
  intro β _ st sl
  refine ⟨?_, ?_, ?_, ?_⟩
  · intro e
    simp [List.mem_filter, inSlice, Bool.and_eq_true]
  · rw [xr_collapse_across_time, cellMeanShaped]
    simp
  · intro i j hi hj
    rw [xr_collapse_across_time, cellAt_cellMeanShaped _ _ _ _ _ hi hj, cellSeries,
      List.map_map]
    rfl
  · intro hempty i j hi hj
    have hnil : st.entries.filter (fun e => inSlice sl e.1) = [] :=
      List.filter_eq_nil_iff.mpr (fun e he => by simp [hempty e he])
    rw [xr_collapse_across_time, hnil, cellAt_cellMeanShaped _ _ _ _ _ hi hj]
    simp [cellSeries, nanmean, nancount]

/-- Witness for C5: the 4-step field against the empty range 1800-1801
yields a missing (degenerate) cell, not an error. -/
theorem collapse_across_time_inclusive_range_witness :
    (∀ e ∈ fourDayField.entries,
      inSlice (TimeBound.byYear 1800, TimeBound.byYear 1801) e.1 = false) ∧
    cellAt (xr_collapse_across_time fourDayField
      (TimeBound.byYear 1800, TimeBound.byYear 1801)) 0 0 = none :=
  ⟨by decide,
   (collapse_across_time_inclusive_range ℚ fourDayField
      (TimeBound.byYear 1800, TimeBound.byYear 1801)).2.2.2
     (by decide) 0 0 (by decide) (by decide)⟩

end Urbanspoon

namespace Urbanspoon

set_option maxRecDepth 8000 in
/-- C6: `collapse_multiple_time_ranges` returns, in input order, one entry
per listed pair keyed `"<start>_<end>"` bound to the collapse of that range;
the default ranges are 2020-2040, 2040-2060, 2060-2080, 2080-2100; and the
720-sample all-ones example yields both keys `"1995_1996"`, `"1996_1997"`
with value 1. -/
theorem apply_collapse_across_time_keyed_map :
    (∀ (β : Type) [LinearOrderedField β] (st : STArray β)
        (slices : List (TimeBound × TimeBound)),
      ((apply_xr_collapse_across_time st slices).map Prod.fst =
        slices.map (fun sl => sl.1.render ++ "_" ++ sl.2.render)) ∧
      (∀ sl ∈ slices,
        (sl.1.render ++ "_" ++ sl.2.render, xr_collapse_across_time st sl) ∈
          apply_xr_collapse_across_time st slices)) ∧
    (defaultSlices.map (fun sl => sl.1.render ++ "_" ++ sl.2.render) =
      ["2020_2040", "2040_2060", "2060_2080", "2080_2100"]) ∧
    apply_xr_collapse_across_time allOnes720Field
        [(.byYear 1995, .byYear 1996), (.byYear 1996, .byYear 1997)] =
      [("1995_1996", [[some 1]]), ("1996_1997", [[some 1]])] := by
  have hall : ∀ e ∈ allOnes720Field.entries, e.2 = [[some (1 : ℚ)]] := by
    intro e he
    rcases List.mem_map.mp he with ⟨i, hi, rfl⟩
    rfl
  have hval : ∀ (sl : TimeBound × TimeBound) (e0 : Date × Grid ℚ),
      e0 ∈ allOnes720Field.entries → inSlice sl e0.1 = true →
      xr_collapse_across_time allOnes720Field sl = [[some 1]] := by
    intro sl e0 he0 hsl
    rw [xr_collapse_across_time,
      show allOnes720Field.lat.length = 1 from rfl,
      show allOnes720Field.lon.length = 1 from rfl, cellMeanShaped]
    simp only [List.range_succ, List.range_zero, List.nil_append, List.map_cons, List.map_nil]
    have hmean : nanmean (cellSeries
        ((allOnes720Field.entries.filter (fun e => inSlice sl e.1)).map (fun e => e.2)) 0 0) =
        some (1 : ℚ) := by
      apply nanmean_all_some
      · intro o ho
        rcases List.mem_map.mp ho with ⟨g, hg, rfl⟩
        rcases List.mem_map.mp hg with ⟨e, he, rfl⟩
        rw [hall e (List.mem_filter.mp he).1]
        rfl
      · simp only [cellSeries, ne_eq, List.map_eq_nil_iff]
        exact List.ne_nil_of_mem (List.mem_filter.mpr ⟨he0, hsl⟩)
    rw [hmean]
  refine ⟨?_, by decide, ?_⟩
  · intro β _ st slices
    constructor
    · simp [apply_xr_collapse_across_time, List.map_map, Function.comp_def]
    · intro sl hsl
      exact List.mem_map_of_mem _ hsl
  · have he1 : ((⟨1995, 1, 1⟩ : Date), ([[some (1 : ℚ)]] : Grid ℚ)) ∈
        allOnes720Field.entries :=
      List.mem_map_of_mem
        (fun i : Nat => ((⟨1995 + i / 360, 1 + (i % 360) / 30, 1 + (i % 360) % 30⟩ : Date),
          ([[some (1 : ℚ)]] : Grid ℚ)))
        (List.mem_range.mpr (by norm_num : (0 : Nat) < 720))
    have he2 : ((⟨1996, 1, 1⟩ : Date), ([[some (1 : ℚ)]] : Grid ℚ)) ∈
        allOnes720Field.entries :=
      List.mem_map_of_mem
        (fun i : Nat => ((⟨1995 + i / 360, 1 + (i % 360) / 30, 1 + (i % 360) % 30⟩ : Date),
          ([[some (1 : ℚ)]] : Grid ℚ)))
        (List.mem_range.mpr (by norm_num : (360 : Nat) < 720))
    rw [apply_xr_collapse_across_time]
    simp only [List.map_cons, List.map_nil]
    rw [hval (.byYear 1995, .byYear 1996) _ he1 (by decide),
      hval (.byYear 1996, .byYear 1997) _ he2 (by decide)]
    rfl

/-- Witness for C6: the first default range's key-value pair is in the
mapping produced over the default slices. -/
theorem apply_collapse_across_time_keyed_map_witness :
    ((TimeBound.byYear 2020, TimeBound.byYear 2040) ∈ defaultSlices) ∧
    ((TimeBound.byYear 2020).render ++ "_" ++ (TimeBound.byYear 2040).render,
      xr_collapse_across_time fourDayField (TimeBound.byYear 2020, TimeBound.byYear 2040)) ∈
      apply_xr_collapse_across_time fourDayField defaultSlices :=
  ⟨by decide,
   (apply_collapse_across_time_keyed_map.1 ℚ fourDayField defaultSlices).2
     (TimeBound.byYear 2020, TimeBound.byYear 2040) (by decide)⟩

end Urbanspoon

/-! ## Claim theorems: threshold counting -/

namespace Urbanspoon

section CountLemmas

variable {α : Type} [LinearOrderedField α]

theorem sortedYears_map_snd (es : List (Date × Grid α)) (f : Grid α → Grid α) :
    sortedYears (es.map (fun e => (e.1, f e.2))) = sortedYears es := by
  induction es with
  | nil => rfl
  | cons e es ih =>
    simp [sortedYears, List.foldr_cons] at ih ⊢
    rw [ih]

theorem gridsOfYear_map_snd (es : List (Date × Grid α)) (f : Grid α → Grid α) (y : Nat) :
    gridsOfYear (es.map (fun e => (e.1, f e.2))) y = (gridsOfYear es y).map f := by
  rw [gridsOfYear, gridsOfYear, List.filter_map, List.map_map, List.map_map]
  rfl

theorem cellAt_whereGT (c : α) (g : Grid α) (i j : Nat) :
    cellAt (whereGT c g) i j =
      (cellAt g i j).bind (fun v => if c < v then some v else none) := by
  show ((g.map (fun row => row.map
      (fun o => o.bind (fun v => if c < v then some v else none)))).getD i
      ((fun row : List (Option α) => row.map
        (fun o => o.bind (fun v => if c < v then some v else none))) [])).getD j
      ((fun o : Option α => o.bind (fun v => if c < v then some v else none)) none) = _
  rw [List.getD_map, List.getD_map]
  rfl

theorem cellNat_cellCountShaped (nlat nlon : Nat) (gs : List (Grid α)) (i j : Nat)
    (hi : i < nlat) (hj : j < nlon) :
    ((cellCountShaped nlat nlon gs).getD i []).getD j 0 = nancount (cellSeries gs i j) := by
  rw [cellCountShaped, List.getD_eq_getElem?_getD, List.getD_eq_getElem?_getD,
    List.getElem?_map, List.getElem?_range hi]
  simp [List.getElem?_range hj]

theorem nancount_mask (t : α) (l : List (Option α)) :
    nancount (l.map (fun o => o.bind (fun v => if t < v then some v else none))) =
      ((l.filterMap id).filter (fun v => decide (t < v))).length := by
  induction l with
  | nil => rfl
  | cons o l ih =>
    cases o with
    | none => simpa [nancount, List.filterMap_cons] using ih
    | some v =>
      by_cases h : t < v <;>
        simp [nancount, List.filterMap_cons, List.filter_cons, h] at ih ⊢ <;>
        simp [ih]

end CountLemmas

/-- C7: `count_above_threshold_by_year` counts, per calendar year and cell,
the timestamps whose value is present and strictly exceeds the threshold
(ties and missing values are not counted), and the output axis is relabeled
from year to the caller's time-axis name. -/
theorem count_across_days_of_year_strict_threshold :
    ∀ (β : Type) [LinearOrderedField β] (st : STArray β) (t : β),
      (xr_count_across_days_of_year st t).dim = "time" ∧
      ((xr_count_across_days_of_year st t).items.map Prod.fst = sortedYears st.entries) ∧
      (∀ p ∈ (xr_count_across_days_of_year st t).items, ∀ i j, i < st.lat.length →
        j < st.lon.length →
        (p.2.getD i []).getD j 0 =
          (((st.entries.filter (fun e => e.1.year == p.1)).filterMap
            (fun e => cellAt e.2 i j)).filter (fun v => decide (t < v))).length) := by
  intro β _ st t
  refine ⟨rfl, ?_, ?_⟩
  · rw [xr_count_across_days_of_year]
    simp [List.map_map, Function.comp_def, sortedYears_map_snd]
  · intro p hp i j hi hj
    rw [xr_count_across_days_of_year] at hp
    simp only at hp
    rcases List.mem_map.mp hp with ⟨y, hy, rfl⟩
    simp only
    rw [cellNat_cellCountShaped _ _ _ _ _ hi hj, gridsOfYear_map_snd, cellSeries,
      List.map_map]
    have hcomp : ((fun g => cellAt g i j) ∘ whereGT t) =
        (fun g : Grid β => (cellAt g i j).bind (fun v => if t < v then some v else none)) := by
      funext g
      exact cellAt_whereGT t g i j
    rw [hcomp]
    rw [show (gridsOfYear st.entries y).map
        (fun g : Grid β => (cellAt g i j).bind (fun v => if t < v then some v else none)) =
      ((gridsOfYear st.entries y).map (fun g => cellAt g i j)).map
        (fun o => o.bind (fun v => if t < v then some v else none)) from by
      rw [List.map_map]
      rfl]
    rw [show (gridsOfYear st.entries y).map (fun g => cellAt g i j) =
        cellSeries (gridsOfYear st.entries y) i j from rfl]
    rw [nancount_mask]
    rw [cellSeries, gridsOfYear, List.map_map, List.filterMap_map]
    rfl

/-- Witness for C7: the 4-step field with threshold 2 counts the two values
3 and 4 of year 1995 at cell (0, 0). -/
theorem count_across_days_of_year_strict_threshold_witness :
    ((1995, [[2]]) ∈ (xr_count_across_days_of_year fourDayField 2).items ∧
      0 < fourDayField.lat.length ∧ 0 < fourDayField.lon.length) ∧
    ((([[2]] : List (List Nat)).getD 0 []).getD 0 0 =
      (((fourDayField.entries.filter (fun e => e.1.year == 1995)).filterMap
        (fun e => cellAt e.2 0 0)).filter (fun v => decide ((2 : ℚ) < v))).length) :=
  ⟨⟨by decide, by decide, by decide⟩,
   (count_across_days_of_year_strict_threshold ℚ fourDayField 2).2.2
     (1995, [[2]]) (by decide) 0 0 (by decide) (by decide)⟩

end Urbanspoon

/-! ## Claim theorems: quantiles by cell -/

namespace Urbanspoon

section QuantileLemmas

variable {α : Type} [LinearOrderedField α]

theorem findIdx?_of_mem {γ : Type} [DecidableEq γ] (l : List γ) (a : γ) (h : a ∈ l) :
    ∃ i, l.findIdx? (fun v => v == a) = some i := by
  cases hf : l.findIdx? (fun v => v == a) with
  | some i => exact ⟨i, rfl⟩
  | none =>
    have := List.findIdx?_eq_none_iff.mp hf a h
    simp at this

theorem findIdx?_none_of_not_mem {γ : Type} [DecidableEq γ] (l : List γ) (a : γ)
    (h : a ∉ l) : l.findIdx? (fun v => v == a) = none := by
  apply List.findIdx?_eq_none_iff.mpr
  intro x hx
  exact beq_eq_false_iff_ne.mpr (fun he => h (he ▸ hx))

theorem sortAsc_of_pairwise_le (l : List α) (h : l.Pairwise (· ≤ ·)) : sortAsc l = l := by
  induction l with
  | nil => rfl
  | cons x l ih =>
    have hx := List.pairwise_cons.mp h
    rw [show sortAsc (x :: l) = insertAsc x (sortAsc l) from rfl, ih hx.2]
    cases l with
    | nil => rfl
    | cons y l2 => rw [insertAsc, if_pos (hx.1 y (List.mem_cons_self y l2))]

theorem quantCell_ok [FloorRing α] (st : STArray α) (q : List α) (c : α × α) (i j : Nat)
    (hi : st.lat.findIdx? (fun v => v == c.1) = some i)
    (hj : st.lon.findIdx? (fun v => v == c.2) = some j) :
    quantCell st q c = Except.ok (c, q.map (fun p =>
      (p, quantileLinear p
        ((cellSeries (st.entries.map (fun e => e.2)) i j).filterMap id)))) := by
  rw [quantCell, hi, hj]

theorem quantCell_err [FloorRing α] (st : STArray α) (q : List α) (c : α × α)
    (h : st.lat.findIdx? (fun v => v == c.1) = none ∨
      st.lon.findIdx? (fun v => v == c.2) = none) :
    quantCell st q c = Except.error "KeyError: coordinate not found" := by
  rcases h with h | h
  · cases hj : st.lon.findIdx? (fun v => v == c.2) <;> rw [quantCell, h, hj]
  · cases hi : st.lat.findIdx? (fun v => v == c.1) <;> rw [quantCell, hi, h]

end QuantileLemmas

/-- C8: `quantiles_across_time_by_cell` pairs each requested coordinate with
the quantiles of that exact grid cell's time series (missing values dropped),
keyed by the coordinate pair in input order; a coordinate absent from the
labels makes the whole call fail with the lookup error instead of
substituting a cell; and the `1..100` ramp's 0.1-quantile is `10.9` at every
corner cell. -/
theorem quantiles_across_time_by_cell_exact_lookup :
    (∀ (β : Type) [LinearOrderedField β] [FloorRing β] (st : STArray β)
        (q : List β) (cells : List (β × β)),
      ((∀ c ∈ cells, c.1 ∈ st.lat ∧ c.2 ∈ st.lon) →
        ∃ r, xr_quantiles_across_time_by_cell st q cells = Except.ok r ∧
          r.map Prod.fst = cells ∧
          (∀ x ∈ r, ∀ i j,
            st.lat.findIdx? (fun v => v == x.1.1) = some i →
            st.lon.findIdx? (fun v => v == x.1.2) = some j →
            x.2 = q.map (fun p => (p, quantileLinear p
              ((cellSeries (st.entries.map (fun e => e.2)) i j).filterMap id))))) ∧
      ((∃ c ∈ cells, c.1 ∉ st.lat ∨ c.2 ∉ st.lon) →
        xr_quantiles_across_time_by_cell st q cells =
          Except.error "KeyError: coordinate not found")) ∧
    xr_quantiles_across_time_by_cell rampField [(1 : ℚ)/10]
        [(-90, -180), (-90, 180), (90, -180), (90, 180)] =
      Except.ok [((-90, -180), [((1 : ℚ)/10, some (109/10))]),
        ((-90, 180), [((1 : ℚ)/10, some (109/10))]),
        ((90, -180), [((1 : ℚ)/10, some (109/10))]),
        ((90, 180), [((1 : ℚ)/10, some (109/10))])] := by
  constructor
  · intro β _ _ st q cells
    constructor
    · intro h
      induction cells with
      | nil => exact ⟨[], rfl, rfl, by simp⟩
      | cons c cs ih =>
        obtain ⟨i, hi⟩ := findIdx?_of_mem st.lat c.1 (h c (List.mem_cons_self c cs)).1
        obtain ⟨j, hj⟩ := findIdx?_of_mem st.lon c.2 (h c (List.mem_cons_self c cs)).2
        obtain ⟨r, hr, hkeys, hvals⟩ := ih (fun c2 hc2 => h c2 (List.mem_cons_of_mem c hc2))
        refine ⟨(c, q.map (fun p => (p, quantileLinear p
          ((cellSeries (st.entries.map (fun e => e.2)) i j).filterMap id)))) :: r,
          ?_, ?_, ?_⟩
        · rw [xr_quantiles_across_time_by_cell, List.mapM_cons,
            quantCell_ok st q c i j hi hj]
          rw [show cs.mapM (quantCell st q) = Except.ok r from hr]
          rfl
        · simp [hkeys]
        · intro x hx i2 j2 hi2 hj2
          rcases List.mem_cons.mp hx with rfl | hx
          · rw [hi] at hi2
            rw [hj] at hj2
            cases hi2
            cases hj2
            rfl
          · exact hvals x hx i2 j2 hi2 hj2
    · intro h
      induction cells with
      | nil => simp at h
      | cons c cs ih =>
        rcases h with ⟨c0, hc0, hbad⟩
        rcases List.mem_cons.mp hc0 with rfl | hc0
        · have herr : quantCell st q c0 = Except.error "KeyError: coordinate not found" := by
            apply quantCell_err
            rcases hbad with hb | hb
            · exact Or.inl (findIdx?_none_of_not_mem _ _ hb)
            · exact Or.inr (findIdx?_none_of_not_mem _ _ hb)
          rw [xr_quantiles_across_time_by_cell, List.mapM_cons, herr]
          rfl
        · have htail : xr_quantiles_across_time_by_cell st q cs =
              Except.error "KeyError: coordinate not found" := ih ⟨c0, hc0, hbad⟩
          rw [xr_quantiles_across_time_by_cell, List.mapM_cons]
          cases hc : quantCell st q c with
          | error e =>
            have he : e = "KeyError: coordinate not found" := by
              rw [quantCell] at hc
              rcases h1 : st.lat.findIdx? (fun v => v == c.1) with _ | i <;>
                rcases h2 : st.lon.findIdx? (fun v => v == c.2) with _ | j <;>
                rw [h1, h2] at hc <;> simp at hc <;> try exact hc.symm
            subst he
            rfl
          | ok b =>
            rw [show cs.mapM (quantCell st q) =
              Except.error "KeyError: coordinate not found" from htail]
            rfl
  · have hser : ∀ i j, i < 2 → j < 2 →
        cellSeries (rampField.entries.map (fun e => e.2)) i j =
          (List.range 100).map (fun k : Nat => some ((k : ℚ) + 1)) := by
      intro i j hi hj
      rw [show rampField.entries = (List.range 100).map (fun i =>
        ((⟨1995, 1, i + 1⟩ : Date),
          ([[some ((i : ℚ) + 1), some ((i : ℚ) + 1)],
            [some ((i : ℚ) + 1), some ((i : ℚ) + 1)]] : Grid ℚ))) from rfl]
      rw [cellSeries, List.map_map, List.map_map]
      apply List.map_eq_map_iff.mpr
      intro k hk
      interval_cases i <;> interval_cases j <;> rfl
    have hfm : ((List.range 100).map (fun k : Nat => some ((k : ℚ) + 1))).filterMap id =
        (List.range 100).map (fun k : Nat => (k : ℚ) + 1) := by
      rw [List.filterMap_map]
      exact congrFun (List.filterMap_eq_map (fun k : Nat => (k : ℚ) + 1)) (List.range 100)
    have hsorted : ((List.range 100).map (fun k : Nat => (k : ℚ) + 1)).Pairwise (· ≤ ·) := by
      apply List.pairwise_map.mpr
      exact (List.pairwise_lt_range 100).imp
        (fun h => by exact add_le_add_right (by exact_mod_cast h.le) 1)
    have hsort : sortAsc ((List.range 100).map (fun k : Nat => (k : ℚ) + 1)) =
        (List.range 100).map (fun k : Nat => (k : ℚ) + 1) :=
      sortAsc_of_pairwise_le _ hsorted
    have hq : quantileLinear ((1 : ℚ)/10)
        ((List.range 100).map (fun k : Nat => (k : ℚ) + 1)) = some (109/10) := by
      rw [quantileLinear]
      simp only [hsort, List.length_map, List.length_range]
      norm_num
      rw [show ((9 : ℤ).toNat) = 9 from rfl]
      norm_num [min_def]
    have hcell : ∀ (c : ℚ × ℚ) (i j : Nat),
        rampField.lat.findIdx? (fun v => v == c.1) = some i →
        rampField.lon.findIdx? (fun v => v == c.2) = some j →
        i < 2 → j < 2 →
        quantCell rampField [(1 : ℚ)/10] c =
          Except.ok (c, [((1 : ℚ)/10, some (109/10))]) := by
      intro c i j hi hj hi2 hj2
      rw [quantCell_ok rampField _ c i j hi hj]
      simp only [List.map_cons, List.map_nil]
      rw [hser i j hi2 hj2, hfm, hq]
    rw [xr_quantiles_across_time_by_cell]
    rw [List.mapM_cons, hcell (-90, -180) 0 0 (by decide) (by decide) (by decide) (by decide)]
    rw [List.mapM_cons, hcell (-90, 180) 0 1 (by decide) (by decide) (by decide) (by decide)]
    rw [List.mapM_cons, hcell (90, -180) 1 0 (by decide) (by decide) (by decide) (by decide)]
    rw [List.mapM_cons, hcell (90, 180) 1 1 (by decide) (by decide) (by decide) (by decide)]
    rfl


/-- Witness for C8: a successful lookup at the only cell of the one-day
field. -/
theorem quantiles_across_time_by_cell_exact_lookup_witness :
    (∀ c ∈ [((1 : ℚ), (1 : ℚ))], c.1 ∈ oneDayOnesField.lat ∧ c.2 ∈ oneDayOnesField.lon) ∧
    (∃ r, xr_quantiles_across_time_by_cell oneDayOnesField [(1 : ℚ)/2]
        [((1 : ℚ), (1 : ℚ))] = Except.ok r ∧
      r.map Prod.fst = [((1 : ℚ), (1 : ℚ))] ∧
      (∀ x ∈ r, ∀ i j,
        oneDayOnesField.lat.findIdx? (fun v => v == x.1.1) = some i →
        oneDayOnesField.lon.findIdx? (fun v => v == x.1.2) = some j →
        x.2 = [(1 : ℚ)/2].map (fun p => (p, quantileLinear p
          ((cellSeries (oneDayOnesField.entries.map (fun e => e.2)) i j).filterMap id))))) :=
  ⟨by decide,
   (quantiles_across_time_by_cell_exact_lookup.1 ℚ oneDayOnesField [(1 : ℚ)/2]
      [((1 : ℚ), (1 : ℚ))]).1 (by decide)⟩

end Urbanspoon
